import Mathlib

/-!
# FlashSpace landing server: the lead-capture request handler

A shallow embedding of `src/server.js`: the CORS middleware, `appendToSheet`
and the `POST /api/send-email` handler.

* JavaScript values are the trees of `JsVal` (what `JSON.parse` and the body
  parsers produce).
* `process.env` is the record `Env`; the clock, the locale formatting of dates,
  the Base64 decoder, `JSON.parse` and the two outbound providers are the fields
  of `World`.
* The calls of the two providers and of `appendToSheet` are recorded, in order,
  in a list of `Call`s.
* `console.log` / `console.error` output is not modelled; an argument of a log
  call is modelled exactly when evaluating it can throw.
-/

namespace FlashSpace

/-! ## JavaScript values -/

/-- A JavaScript value as it reaches this program: `undefined`, or a JSON tree.
Numbers are the integers (below `10^21` in absolute value, where ToString
prints plain decimal digits). An object is a list of own properties with
distinct keys, none of them `toString` or `valueOf`, so that ToString of an
object is the inherited `[object Object]`. -/
inductive JsVal where
  | undefined : JsVal
  | null : JsVal
  | bool (b : Bool) : JsVal
  | num (n : Int) : JsVal
  | str (s : String) : JsVal
  | arr (items : List JsVal) : JsVal
  | obj (fields : List (String × JsVal)) : JsVal

namespace JsVal

/-- ToBoolean: `undefined`, `null`, `false`, `0` and `''` are falsy. -/
def truthy : JsVal → Bool
  | undefined => false
  | null => false
  | bool b => b
  | num n => n != 0
  | str s => s != ""
  | arr _ => true
  | obj _ => true

/-- True for `undefined` and `null`: the values a property read throws on. -/
def nullish : JsVal → Bool
  | undefined => true
  | null => true
  | _ => false

/-- Own property of an object literal, `undefined` when the key is absent. -/
def lookup (k : String) : List (String × JsVal) → JsVal
  | [] => undefined
  | (k', v) :: rest => if k' = k then v else lookup k rest

/-- Property read `v.k` on a value that is not nullish, for the keys this program
reads (none of them is a built-in property of a string, number, boolean or
array): an object yields its own property, anything else `undefined`. -/
def get (v : JsVal) (k : String) : JsVal :=
  match v with
  | obj fields => lookup k fields
  | _ => undefined

/-- Optional chaining `v?.k`: `undefined` when `v` is nullish. -/
def optGet (v : JsVal) (k : String) : JsVal :=
  if v.nullish then undefined else v.get k

/-- The operator `a || b`. -/
def or (a b : JsVal) : JsVal :=
  if a.truthy then a else b

/-- The values `Object.values(v)` enumerates, for a `v` that is not nullish; a
string enumerates its characters, each a string of length one. -/
def values : JsVal → List JsVal
  | obj fields => fields.map Prod.snd
  | arr items => items
  | str s => s.data.map fun c => str (String.singleton c)
  | _ => []

/-- The test `val !== ''`. -/
def isNotEmptyStr : JsVal → Bool
  | str s => s != ""
  | _ => true

mutual
/-- ToString, as a template literal applies it. -/
def toStr : JsVal → String
  | undefined => "undefined"
  | null => "null"
  | bool b => if b then "true" else "false"
  | num n => toString n
  | str s => s
  | arr items => joinItems items
  | obj _ => "[object Object]"
/-- The text of `Array.prototype.join(',')`: nullish elements render as `''`. -/
def joinItems : List JsVal → String
  | [] => ""
  | [x] => if x.nullish then "" else toStr x
  | x :: y :: rest => (if x.nullish then "" else toStr x) ++ "," ++ joinItems (y :: rest)
end

end JsVal

/-! ## The notification email (lines 228-284 and 284-419) -/

/-- The first template literal of `utmInfo` (lines 229-267): the attribution table. -/
def utmTable (utm : JsVal) : String :=
  "
        <h3 style=\"color: #4A90E2; margin-top: 30px; padding-top: 20px; border-top: 2px solid #eee;\">📊 Marketing Tracking Data</h3>
        <div style=\"background: #f8f9fa; padding: 20px; border-radius: 8px; margin: 20px 0;\">
            <table style=\"width: 100%; border-collapse: collapse; font-family: Arial, sans-serif;\">
                <tr style=\"background: #e9ecef;\">
                    <td style=\"padding: 12px 15px; border: 1px solid #dee2e6; font-weight: bold; color: #495057;\">Campaign</td>
                    <td style=\"padding: 12px 15px; border: 1px solid #dee2e6; color: #6c757d;\">" ++
  ((utm.get "utm_campaign").or (.str "Direct Visit")).toStr ++
  "</td>
                </tr>
                <tr>
                    <td style=\"padding: 12px 15px; border: 1px solid #dee2e6; font-weight: bold; color: #495057;\">Source</td>
                    <td style=\"padding: 12px 15px; border: 1px solid #dee2e6; color: #6c757d;\">" ++
  ((utm.get "utm_source").or (.str "Direct")).toStr ++
  "</td>
                </tr>
                <tr style=\"background: #e9ecef;\">
                    <td style=\"padding: 12px 15px; border: 1px solid #dee2e6; font-weight: bold; color: #495057;\">Medium</td>
                    <td style=\"padding: 12px 15px; border: 1px solid #dee2e6; color: #6c757d;\">" ++
  ((utm.get "utm_medium").or (.str "None")).toStr ++
  "</td>
                </tr>
                <tr>
                    <td style=\"padding: 12px 15px; border: 1px solid #dee2e6; font-weight: bold; color: #495057;\">Keyword</td>
                    <td style=\"padding: 12px 15px; border: 1px solid #dee2e6; color: #6c757d;\">" ++
  ((utm.get "utm_term").or (.str "N/A")).toStr ++
  "</td>
                </tr>
                <tr style=\"background: #e9ecef;\">
                    <td style=\"padding: 12px 15px; border: 1px solid #dee2e6; font-weight: bold; color: #495057;\">Ad Content</td>
                    <td style=\"padding: 12px 15px; border: 1px solid #dee2e6; color: #6c757d;\">" ++
  ((utm.get "utm_content").or (.str "N/A")).toStr ++
  "</td>
                </tr>
                <tr>
                    <td style=\"padding: 12px 15px; border: 1px solid #dee2e6; font-weight: bold; color: #495057;\">Google Click ID</td>
                    <td style=\"padding: 12px 15px; border: 1px solid #dee2e6; color: #6c757d; font-family: monospace; font-size: 12px;\">" ++
  ((utm.get "gclid").or (.str "N/A")).toStr ++
  "</td>
                </tr>
                <tr style=\"background: #e9ecef;\">
                    <td style=\"padding: 12px 15px; border: 1px solid #dee2e6; font-weight: bold; color: #495057;\">Landing Page</td>
                    <td style=\"padding: 12px 15px; border: 1px solid #dee2e6; color: #6c757d; font-size: 12px; word-break: break-all;\">" ++
  ((utm.get "landing_page").or (.str "N/A")).toStr ++
  "</td>
                </tr>
                <tr>
                    <td style=\"padding: 12px 15px; border: 1px solid #dee2e6; font-weight: bold; color: #495057;\">Referrer</td>
                    <td style=\"padding: 12px 15px; border: 1px solid #dee2e6; color: #6c757d; font-size: 12px;\">" ++
  ((utm.get "referrer").or (.str "Direct Visit")).toStr ++
  "</td>
                </tr>
            </table>
        </div>
    "

/-- The second template literal of `utmInfo` (lines 267-272): no attribution. -/
def utmNone : String :=
  "
        <h3 style=\"color: #6c757d; margin-top: 30px; padding-top: 20px; border-top: 2px solid #eee;\">📊 Marketing Tracking</h3>
        <div style=\"background: #f8f9fa; padding: 20px; border-radius: 8px; margin: 20px 0;\">
            <p style=\"color: #6c757d; margin: 0;\"><strong>Source:</strong> Direct Visit (No UTM parameters)</p>
        </div>
    "

/-- The constant `utmInfo` (line 229): the table when `utm` is truthy and some
value of it is not `''`, the other block otherwise. -/
def utmInfo (utm : JsVal) : String :=
  if utm.truthy && utm.values.any JsVal.isNotEmptyStr then utmTable utm else utmNone

/-- The constant `campaignValue` (lines 275-276). -/
def campaignValue (utm : JsVal) : String :=
  if (utm.optGet "utm_campaign").truthy then
    "<p style=\"background: #d4edda; color: #155724; padding: 10px; border-radius: 5px; margin: 10px 0;\"><strong>💰 Estimated Lead Value:</strong> ₹2,500 (Based on campaign: " ++
    (utm.get "utm_campaign").toStr ++
    ")</p>"
  else ""

/-- The `subject` of the email (line 283). -/
def subject (name city utm : JsVal) : String :=
  "🎯 New Lead: " ++
  name.toStr ++
  " from " ++
  ((utm.optGet "utm_campaign").or (.str "Direct Visit")).toStr ++
  " - " ++
  city.toStr ++
  ""

/-- The customer message block of the email body (lines 370-379). -/
def messageSection (message : JsVal) : String :=
  if message.truthy then
    "
                        <!-- Message Section -->
                        <div style=\"background: linear-gradient(135deg, #E6F7FF 0%, #CCE7FF 100%); border-left: 5px solid #1890FF; border-radius: 12px; padding: 25px; margin: 25px 0; box-shadow: 0 3px 10px rgba(24,144,255,0.1);\">
                            <div style=\"display: flex; align-items: center; margin-bottom: 15px;\">
                                <span style=\"font-size: 24px; margin-right: 12px;\">💬</span>
                                <h3 style=\"color: #1890FF; margin: 0; font-size: 18px; font-weight: 700;\">Customer Message</h3>
                            </div>
                            <p style=\"margin: 0; color: #2D3748; line-height: 1.7; font-size: 15px; font-style: italic; background: white; padding: 18px; border-radius: 8px;\">\"" ++
    message.toStr ++
    "\"</p>
                        </div>
                        "
  else ""

/-- The email body up to the quick stats banner (lines 284-296). -/
def htmlHeader : String :=
  "
                <div style=\"font-family: 'Inter', -apple-system, BlinkMacSystemFont, 'Segoe UI', sans-serif; max-width: 650px; margin: 0 auto; background: #ffffff;\">
                    <!-- Header -->
                    <div style=\"background: linear-gradient(135deg, #FF6B35 0%, #FF8C42 50%, #FFA94D 100%); padding: 40px 30px; text-align: center; position: relative;\">
                        <div style=\"background: rgba(255,255,255,0.15); padding: 20px; border-radius: 12px; backdrop-filter: blur(10px);\">
                            <div style=\"font-size: 48px; margin-bottom: 10px;\">⚡</div>
                            <h1 style=\"margin: 0; font-size: 32px; font-weight: 700; color: #ffffff; text-shadow: 0 2px 4px rgba(0,0,0,0.1);\">New Virtual Office Lead!</h1>
                            <p style=\"margin: 12px 0 0 0; color: rgba(255,255,255,0.95); font-size: 16px; font-weight: 500;\">FlashSpace Landing Page</p>
                        </div>
                    </div>
                    
                    <!-- Content -->
                    <div style=\"padding: 35px 30px;\">
                        "

/-- The quick stats banner of the email body (lines 297-314). -/
def htmlQuickStats (city utm : JsVal) : String :=
  "<!-- Quick Stats Banner -->
                        <div style=\"background: linear-gradient(135deg, #FFF4E6 0%, #FFE5CC 100%); border-radius: 12px; padding: 20px; margin-bottom: 30px; border-left: 4px solid #FF6B35;\">
                            <div style=\"display: flex; justify-content: space-between; align-items: center;\">
                                <div style=\"text-align: center; flex: 1;\">
                                    <div style=\"font-size: 24px; font-weight: 700; color: #FF6B35;\">🔥 HOT</div>
                                    <div style=\"font-size: 12px; color: #666; margin-top: 5px;\">New Lead</div>
                                </div>
                                <div style=\"text-align: center; flex: 1; border-left: 2px solid #FFD4B3; border-right: 2px solid #FFD4B3;\">
                                    <div style=\"font-size: 20px; font-weight: 700; color: #FF6B35;\">" ++
  city.toStr ++
  "</div>
                                    <div style=\"font-size: 12px; color: #666; margin-top: 5px;\">Location</div>
                                </div>
                                <div style=\"text-align: center; flex: 1;\">
                                    <div style=\"font-size: 20px; font-weight: 700; color: #FF6B35;\">" ++
  ((utm.optGet "utm_source").or (.str "Direct")).toStr ++
  "</div>
                                    <div style=\"font-size: 12px; color: #666; margin-top: 5px;\">Source</div>
                                </div>
                            </div>
                        </div>
                        
                        "

/-- The contact details of the email body (lines 315-369); `submitted` is the
text of `new Date(timestamp).toLocaleString(...)`. -/
def htmlContact (submitted : String) (name email phone city company : JsVal) : String :=
  "<!-- Contact Information -->
                        <div style=\"background: #ffffff; border: 2px solid #FFF0E5; border-radius: 12px; padding: 28px; margin-bottom: 25px; box-shadow: 0 4px 12px rgba(255,107,53,0.08);\">
                            <div style=\"display: flex; align-items: center; margin-bottom: 22px;\">
                                <div style=\"background: linear-gradient(135deg, #FF6B35, #FF8C42); width: 40px; height: 40px; border-radius: 10px; display: flex; align-items: center; justify-content: center; margin-right: 15px;\">
                                    <span style=\"font-size: 20px;\">👤</span>
                                </div>
                                <h2 style=\"color: #2D3748; margin: 0; font-size: 22px; font-weight: 700;\">Contact Details</h2>
                            </div>
                            
                            <div style=\"background: #FAFAFA; border-radius: 8px; padding: 20px;\">
                                <table style=\"width: 100%; border-collapse: collapse;\">
                                    <tr>
                                        <td style=\"padding: 14px 0; border-bottom: 1px solid #E2E8F0; font-weight: 600; color: #4A5568; width: 35%;\">
                                            <span style=\"color: #FF6B35; margin-right: 8px;\">●</span>Full Name
                                        </td>
                                        <td style=\"padding: 14px 0; border-bottom: 1px solid #E2E8F0; color: #2D3748; font-weight: 500;\">" ++
  name.toStr ++
  "</td>
                                    </tr>
                                    <tr>
                                        <td style=\"padding: 14px 0; border-bottom: 1px solid #E2E8F0; font-weight: 600; color: #4A5568;\">
                                            <span style=\"color: #FF6B35; margin-right: 8px;\">●</span>Email
                                        </td>
                                        <td style=\"padding: 14px 0; border-bottom: 1px solid #E2E8F0;\">
                                            <a href=\"mailto:" ++
  email.toStr ++
  "\" style=\"color: #FF6B35; text-decoration: none; font-weight: 600;\">" ++
  email.toStr ++
  "</a>
                                        </td>
                                    </tr>
                                    <tr>
                                        <td style=\"padding: 14px 0; border-bottom: 1px solid #E2E8F0; font-weight: 600; color: #4A5568;\">
                                            <span style=\"color: #FF6B35; margin-right: 8px;\">●</span>Phone
                                        </td>
                                        <td style=\"padding: 14px 0; border-bottom: 1px solid #E2E8F0;\">
                                            <a href=\"tel:" ++
  phone.toStr ++
  "\" style=\"color: #FF6B35; text-decoration: none; font-weight: 600; font-size: 16px;\">" ++
  phone.toStr ++
  "</a>
                                        </td>
                                    </tr>
                                    <tr>
                                        <td style=\"padding: 14px 0; border-bottom: 1px solid #E2E8F0; font-weight: 600; color: #4A5568;\">
                                            <span style=\"color: #FF6B35; margin-right: 8px;\">●</span>City
                                        </td>
                                        <td style=\"padding: 14px 0; border-bottom: 1px solid #E2E8F0; color: #2D3748; font-weight: 500;\">" ++
  city.toStr ++
  "</td>
                                    </tr>
                                    <tr>
                                        <td style=\"padding: 14px 0; border-bottom: 1px solid #E2E8F0; font-weight: 600; color: #4A5568;\">
                                            <span style=\"color: #FF6B35; margin-right: 8px;\">●</span>Company
                                        </td>
                                        <td style=\"padding: 14px 0; border-bottom: 1px solid #E2E8F0; color: #2D3748; font-weight: 500;\">" ++
  company.toStr ++
  "</td>
                                    </tr>
                                    <tr>
                                        <td style=\"padding: 14px 0; font-weight: 600; color: #4A5568;\">
                                            <span style=\"color: #FF6B35; margin-right: 8px;\">●</span>Submitted
                                        </td>
                                        <td style=\"padding: 14px 0; color: #718096; font-size: 14px;\">" ++
  submitted ++
  "</td>
                                    </tr>
                                </table>
                            </div>
                        </div>
                        
                        "

/-- The action items of the email body (lines 385-404). -/
def htmlNextSteps (city : JsVal) : String :=
  "
                        
                        <!-- Action Items -->
                        <div style=\"background: linear-gradient(135deg, #FFF9E6 0%, #FFF3CC 100%); border: 2px solid #FFD666; border-radius: 12px; padding: 25px; margin-top: 30px;\">
                            <div style=\"display: flex; align-items: center; margin-bottom: 18px;\">
                                <div style=\"background: #FFB800; width: 36px; height: 36px; border-radius: 8px; display: flex; align-items: center; justify-content: center; margin-right: 12px;\">
                                    <span style=\"font-size: 20px;\">⚡</span>
                                </div>
                                <h3 style=\"color: #B7791F; margin: 0; font-size: 20px; font-weight: 700;\">Next Steps - Act Fast!</h3>
                            </div>
                            <div style=\"background: white; border-radius: 8px; padding: 20px;\">
                                <ul style=\"margin: 0; padding-left: 24px; color: #6B5416; line-height: 2;\">
                                    <li style=\"margin-bottom: 10px; font-weight: 500;\"><strong style=\"color: #B7791F;\">📞 Call within 30 minutes</strong> for best conversion rate</li>
                                    <li style=\"margin-bottom: 10px; font-weight: 500;\"><strong style=\"color: #B7791F;\">📧 Email follow-up</strong> with virtual office packages for " ++
  city.toStr ++
  "</li>
                                    <li style=\"margin-bottom: 10px; font-weight: 500;\"><strong style=\"color: #B7791F;\">💰 Send pricing</strong> for " ++
  city.toStr ++
  " virtual office locations</li>
                                    <li style=\"font-weight: 500;\"><strong style=\"color: #B7791F;\">📅 Schedule</strong> a video call to explain the process</li>
                                </ul>
                            </div>
                        </div>
                    </div>
                    
                    "

/-- The footer of the email body (lines 405-419); `now` is the reading of
`Date.now()`. -/
def htmlFooter (now : Nat) : String :=
  "<!-- Footer -->
                    <div style=\"background: linear-gradient(135deg, #2D3748 0%, #1A202C 100%); padding: 30px; text-align: center;\">
                        <div style=\"margin-bottom: 15px;\">
                            <div style=\"display: inline-block; background: rgba(255,107,53,0.15); padding: 12px 24px; border-radius: 25px; border: 2px solid #FF6B35;\">
                                <span style=\"color: #FF6B35; font-size: 24px; font-weight: 700;\">⚡ FlashSpace</span>
                            </div>
                        </div>
                        <p style=\"margin: 12px 0 5px 0; color: #A0AEC0; font-size: 14px; font-weight: 500;\">New lead from FlashSpace Virtual Office Landing Page</p>
                        <p style=\"margin: 5px 0 15px 0; color: #718096; font-size: 13px;\">Lead ID: <span style=\"color: #FF6B35; font-weight: 600;\">FS-" ++
  toString now ++
  "</span></p>
                        <div style=\"border-top: 1px solid #4A5568; padding-top: 15px; margin-top: 15px;\">
                            <p style=\"margin: 0; color: #718096; font-size: 12px;\">Powered by FlashSpace Lead Generation System</p>
                        </div>
                    </div>
                </div>
            "

/-- The `html` of the email (lines 284-419), section by section. -/
def html (submitted : String) (now : Nat)
    (name email phone city company message utm : JsVal) : String :=
  htmlHeader ++
  htmlQuickStats city utm ++
  htmlContact submitted name email phone city company ++
  messageSection message ++
  "
                        
                        " ++
  campaignValue utm ++
  "
                        
                        <!-- Marketing Tracking Data -->
                        " ++
  utmInfo utm ++
  htmlNextSteps city ++
  htmlFooter now

/-! ## Exceptions -/

/-- A thrown value: an `Error` instance (`name` and `message` are strings, as the
constructors of `Error` and of its subclasses make them; `code` and `response`
are what the HTTP client attaches), or any other value. -/
inductive Thrown where
  | error (name message : String) (code response : JsVal) : Thrown
  | value (v : JsVal) : Thrown

/-- The `TypeError` the engine throws. -/
def typeError (message : String) : Thrown :=
  .error "TypeError" message .undefined .undefined

/-- The message of the `TypeError` for reading property `k` of a nullish `v`. -/
def readErrorMessage (v : JsVal) (k : String) : String :=
  "Cannot read properties of " ++ v.toStr ++ " (reading '" ++ k ++ "')"

/-- Property read `v.k`: throws a `TypeError` when `v` is `undefined` or `null`. -/
def JsVal.read (v : JsVal) (k : String) : Except Thrown JsVal :=
  if v.nullish then .error (typeError (readErrorMessage v k)) else .ok (v.get k)

/-- Property read `error.k` on a caught value, for `k` one of `name`, `message`,
`code`, `response`. -/
def Thrown.read (t : Thrown) (k : String) : Except Thrown JsVal :=
  match t with
  | .error name message code response =>
    if k = "name" then .ok (.str name)
    else if k = "message" then .ok (.str message)
    else if k = "code" then .ok code
    else if k = "response" then .ok response
    else .ok .undefined
  | .value v => v.read k

/-- The text of `error.toString()` on a caught value that is not nullish:
`Error.prototype.toString` for an `Error`, ToString otherwise. -/
def Thrown.toStr : Thrown → String
  | .error name message _ _ =>
    if name = "" then message else if message = "" then name else name ++ ": " ++ message
  | .value v => v.toStr

/-- The `ReferenceError` the engine throws when an identifier that is not in
scope is read. -/
def referenceError (identifier : String) : Thrown :=
  .error "ReferenceError" (identifier ++ " is not defined") .undefined .undefined

/-- Whether `needle` occurs in `text` as a run of consecutive characters. -/
def containsText (needle : List Char) : List Char → Bool
  | [] => needle.isEmpty
  | c :: cs => needle.isPrefixOf (c :: cs) || containsText needle cs

/-- The call `m.includes(needle)` with a string argument: on a string, whether
`needle` is a substring; on an array, whether `needle` is one of its elements;
on anything else a `TypeError`. -/
def JsVal.includes (m : JsVal) (needle : String) : Except Thrown Bool :=
  match m with
  | .str s => .ok (containsText needle.data s.data)
  | .arr items =>
    .ok (items.any fun item =>
      match item with
      | .str s => s == needle
      | _ => false)
  | .undefined => .error (typeError (readErrorMessage .undefined "includes"))
  | .null => .error (typeError (readErrorMessage .null "includes"))
  | _ => .error (typeError "error.message.includes is not a function")

/-! ## Configuration, the outside world and the trace of outbound calls -/

/-- The variables of `process.env` the program reads; `none` is an unset variable. -/
structure Env where
  RESEND_API_KEY : Option String
  GOOGLE_SHEETS_ID : Option String
  GOOGLE_SHEET_NAME : Option String
  GOOGLE_SERVICE_ACCOUNT_KEY_BASE64 : Option String
  GOOGLE_SERVICE_ACCOUNT_KEY : Option String
  NODE_ENV : Option String

/-- Truthiness of `process.env.X`: set and not the empty string. -/
def envTruthy : Option String → Bool
  | none => false
  | some s => s != ""

/-- The argument of `resend.emails.send` (lines 279-420); `sender` is its `from`
and `recipients` its `to`. -/
structure EmailRequest where
  sender : String
  recipients : List String
  replyTo : JsVal
  subject : String
  html : String

/-- The argument of `sheets.spreadsheets.values.append` (lines 127-132), with the
credentials of the client it is called on (lines 90-96). -/
structure AppendRequest where
  credentials : JsVal
  spreadsheetId : String
  range : String
  valueInputOption : String
  values : List (List JsVal)

/-- An observed call: the two outbound provider calls, and the handler's call
of `appendToSheet(req.body)` (line 437). -/
inductive Call where
  | emailSend (request : EmailRequest) : Call
  | appendToSheet (data : JsVal) : Call
  | sheetsAppend (request : AppendRequest) : Call

/-- How an awaited provider call settles. -/
inductive Settled where
  | resolves (value : JsVal) : Settled
  | rejects (reason : Thrown) : Settled

/-- Everything the program reads from outside: the two providers, the library
functions `Buffer.from(s, 'base64').toString('utf8')` and `JSON.parse` (an
`Except.error` carries the message of the `SyntaxError`), the three readings of
`Date.now()` (email body, sheet row, response), and the locale formatting of
the current date and of the submitted timestamp. -/
structure World where
  send : EmailRequest → Settled
  append : AppendRequest → Settled
  base64Decode : String → String
  jsonParse : String → Except String JsVal
  emailNow : Nat
  sheetNow : Nat
  responseNow : Nat
  sheetTimestamp : String
  submitted : JsVal → String

/-- The status and the object handed to `res.json`. -/
structure Response where
  status : Nat
  body : List (String × JsVal)

/-- A field of the JSON body as the client receives it: `JSON.stringify` drops
the properties whose value is `undefined`. -/
def Response.field (r : Response) (k : String) : Option JsVal :=
  match JsVal.lookup k r.body with
  | .undefined => none
  | v => some v

/-! ## `appendToSheet` (lines 44-165) -/

/-- Lines 64-72 and 75-82: parse the credential text and read `client_email`;
the `catch` returns the failure object with the message of what was thrown. -/
def parseCredentials (w : World) (text failMessage : String) : Except JsVal JsVal :=
  match w.jsonParse text with
  | .error m =>
    .error (.obj [("success", .bool false), ("message", .str failMessage), ("error", .str m)])
  | .ok credentials =>
    if credentials.nullish then
      .error (.obj [("success", .bool false), ("message", .str failMessage),
        ("error", .str (readErrorMessage credentials "client_email"))])
    else .ok credentials

/-- Lines 59-87: the credentials, or the object `appendToSheet` returns early. -/
def loadCredentials (env : Env) (w : World) : Except JsVal JsVal :=
  if envTruthy env.GOOGLE_SERVICE_ACCOUNT_KEY_BASE64 then
    parseCredentials w (w.base64Decode (env.GOOGLE_SERVICE_ACCOUNT_KEY_BASE64.getD ""))
      "Failed to decode Base64 credentials"
  else if envTruthy env.GOOGLE_SERVICE_ACCOUNT_KEY then
    parseCredentials w (env.GOOGLE_SERVICE_ACCOUNT_KEY.getD "")
      "Failed to parse JSON credentials"
  else
    .error (.obj [("success", .bool false),
      ("message", .str "Google Service Account not configured (no credentials found)")])

/-- The value of `process.env.GOOGLE_SHEET_NAME || 'Sheet1!A:P'`. -/
def sheetRange (env : Env) : String :=
  if envTruthy env.GOOGLE_SHEET_NAME then env.GOOGLE_SHEET_NAME.getD "" else "Sheet1!A:P"

/-- Lines 101-118: the rows handed to the append call. -/
def sheetValues (w : World) (data : JsVal) : List (List JsVal) :=
  [[.str w.sheetTimestamp,
    (data.get "name").or (.str ""),
    (data.get "email").or (.str ""),
    (data.get "phone").or (.str ""),
    (data.get "city").or (.str ""),
    (data.get "company").or (.str ""),
    (data.get "message").or (.str ""),
    ((data.get "utm").optGet "utm_source").or (.str ""),
    ((data.get "utm").optGet "utm_medium").or (.str ""),
    ((data.get "utm").optGet "utm_campaign").or (.str ""),
    ((data.get "utm").optGet "utm_term").or (.str ""),
    ((data.get "utm").optGet "utm_content").or (.str ""),
    ((data.get "utm").optGet "gclid").or (.str ""),
    ((data.get "utm").optGet "referrer").or (.str ""),
    ((data.get "utm").optGet "landing_page").or (.str ""),
    .str ("FS-" ++ toString w.sheetNow)]]

/-- Lines 134-138, after the append call resolved with `result`: the two log lines
read `result.data.updates.updatedCells` and `result.data.updates.updatedRange`. -/
def appendResolved (result : JsVal) : Except Thrown JsVal :=
  match result.read "data" with
  | .error t => .error t
  | .ok data =>
    match data.read "updates" with
    | .error t => .error t
    | .ok updates =>
      match updates.read "updatedCells" with
      | .error t => .error t
      | .ok _ => .ok (.obj [("success", .bool true), ("result", data)])

/-- The argument of the append call (lines 127-132) on the client built from
`credentials` (lines 90-96). -/
def appendRequest (env : Env) (w : World) (data credentials : JsVal) : AppendRequest :=
  { credentials := credentials
    spreadsheetId := env.GOOGLE_SHEETS_ID.getD ""
    range := sheetRange env
    valueInputOption := "RAW"
    values := sheetValues w data }

/-- The `try` block of `appendToSheet` (lines 45-138): what it returns or throws,
and the provider calls it made. `data` is `req.body`. Building the auth client
and the API client (lines 90-96) does no I/O and is taken not to throw. -/
def appendTry (env : Env) (w : World) (data : JsVal) : Except Thrown JsVal × List Call :=
  if !envTruthy env.GOOGLE_SHEETS_ID then
    (.ok (.obj [("success", .bool false),
      ("message", .str "Google Sheets not configured (missing GOOGLE_SHEETS_ID)")]), [])
  else
    match loadCredentials env w with
    | .error early => (.ok early, [])
    | .ok credentials =>
      match w.append (appendRequest env w data credentials) with
      | .rejects reason =>
        (.error reason, [.sheetsAppend (appendRequest env w data credentials)])
      | .resolves result =>
        (appendResolved result, [.sheetsAppend (appendRequest env w data credentials)])

/-- The `catch` block of `appendToSheet` (lines 139-164). The log lines read
`error.name`, `error.message`, `error.code` and `error.response` (lines
141-148), then test `error.message.includes(...)` three times (lines 150, 154,
158). The branch of the third test reads `credentials` (line 159), which is
declared with `let` inside the `try` block (line 59) and is not in scope in the
`catch` block: the read throws a `ReferenceError`. Line 163 builds the
result. -/
def appendCatch (error : Thrown) : Except Thrown JsVal :=
  match error.read "name" with
  | .error t => .error t
  | .ok _ =>
    match error.read "message" with
    | .error t => .error t
    | .ok message =>
      match error.read "code" with
      | .error t => .error t
      | .ok code =>
        match message.includes "Unable to parse range" with
        | .error t => .error t
        | .ok _ =>
          match message.includes "Requested entity was not found" with
          | .error t => .error t
          | .ok _ =>
            match message.includes "does not have permission" with
            | .error t => .error t
            | .ok true => .error (referenceError "credentials")
            | .ok false =>
              .ok (.obj [("success", .bool false), ("error", message), ("details", code)])

/-- The function `appendToSheet(data)`: the value it returns (`Except.ok`) or the
value it throws (`Except.error`), and the provider calls it made. -/
def appendToSheet (env : Env) (w : World) (data : JsVal) : Except Thrown JsVal × List Call :=
  match appendTry env w data with
  | (.ok result, calls) => (.ok result, calls)
  | (.error error, calls) => (appendCatch error, calls)

/-! ## `POST /api/send-email` (lines 168-472) -/

/-- One run of a handler: the response it sent (`none` when it threw before
sending one) and the calls it made, in order. -/
structure Run where
  response : Option Response
  calls : List Call

/-- The argument of `resend.emails.send` for the request body `body`. -/
def emailRequest (w : World) (body : JsVal) : EmailRequest :=
  { sender := "FlashSpace Virtual Office <onboarding@resend.dev>"
    recipients := ["sales@flashspace.co"]
    replyTo := body.get "email"
    subject := subject (body.get "name") (body.get "city") (body.get "utm")
    html := html (w.submitted (body.get "timestamp")) w.emailNow
      (body.get "name") (body.get "email") (body.get "phone") (body.get "city")
      (body.get "company") (body.get "message") (body.get "utm") }

/-- Lines 437-457, once `sheetResult` is known (an object `appendToSheet`
returned): the body of the success response. -/
def successBody (w : World) (data sheetResult : JsVal) : List (String × JsVal) :=
  [("success", .bool true),
   ("message", .str "Email sent successfully! We will contact you soon."),
   ("emailId", data.get "id"),
   ("leadId", .str ("FS-" ++ toString w.responseNow)),
   ("googleSheets", sheetResult.get "success"),
   ("googleSheetsError",
      if (sheetResult.get "success").truthy then .null
      else (sheetResult.get "message").or (sheetResult.get "error"))]

/-- The `try` block of the handler (lines 278-457): the response it sends or the
value it throws, and the calls it made. -/
def sendTry (env : Env) (w : World) (body : JsVal) : Except Thrown Response × List Call :=
  let request := emailRequest w body
  match w.send request with
  | .rejects reason => (.error reason, [.emailSend request])
  | .resolves sent =>
    if sent.nullish then
      (.error (typeError ("Cannot destructure property 'data' of '(intermediate value)' as it is "
        ++ sent.toStr ++ ".")), [.emailSend request])
    else if (sent.get "error").truthy then
      (.ok { status := 500
             body := [("success", .bool false),
                      ("message", .str "Failed to send email via Resend."),
                      ("error", ((sent.get "error").get "message").or
                        (.str "Unknown Resend error"))] },
        [.emailSend request])
    else
      match (sent.get "data").read "id" with
      | .error t => (.error t, [.emailSend request])
      | .ok _ =>
        match appendToSheet env w body with
        | (.error t, calls) => (.error t, .emailSend request :: .appendToSheet body :: calls)
        | (.ok sheetResult, calls) =>
          (.ok { status := 200, body := successBody w (sent.get "data") sheetResult },
            .emailSend request :: .appendToSheet body :: calls)

/-- The `catch` block of the handler (lines 458-471): the log lines read
`error.name` and `error.message`; `none` when one of these reads throws. -/
def sendCatch (env : Env) (error : Thrown) : Option Response :=
  match error.read "name" with
  | .error _ => none
  | .ok _ =>
    match error.read "message" with
    | .error _ => none
    | .ok message =>
      some { status := 500
             body := [("success", .bool false),
                      ("message", .str "Failed to send email. Please try again later."),
                      ("error", message),
                      ("details", if env.NODE_ENV = some "development"
                        then .str error.toStr else .undefined)] }

/-- The handler of `POST /api/send-email` on the parsed request body `body`
(the object the body parsers leave in `req.body`). -/
def sendEmail (env : Env) (w : World) (body : JsVal) : Run :=
  if !(body.get "name").truthy || !(body.get "email").truthy then
    { response := some { status := 400
                         body := [("success", .bool false),
                                  ("message", .str "Name and email are required")] }
      calls := [] }
  else if !envTruthy env.RESEND_API_KEY || env.RESEND_API_KEY = some "re_your_api_key_here" then
    { response := some { status := 500
                         body := [("success", .bool false),
                                  ("message", .str
                                    "Email service not configured. Please contact administrator.")] }
      calls := [] }
  else
    match sendTry env w body with
    | (.ok response, calls) => { response := some response, calls := calls }
    | (.error error, calls) => { response := sendCatch env error, calls := calls }

/-! ## The CORS middleware (lines 13-36) -/

/-- The constant `allowedOrigins` (lines 15-22). -/
def allowedOrigins : List String :=
  ["http://localhost:3000",
   "https://vo.flashspace.co",
   "https://virtual.flashspace.co",
   "https://flashspace.co",
   "https://www.flashspace.co",
   "https://flashspace01-flash-space-google-ads.vercel.app"]

/-- What the middleware reads of a request: `req.method` and `req.headers.origin`
(`none` when the header is missing). -/
structure Request where
  method : String
  origin : Option String

/-- How the middleware ends: it calls `next()`, or it answers itself;
`res.sendStatus(code)` sends the status with its reason phrase as the body. -/
inductive Outcome where
  | next : Outcome
  | sent (status : Nat) (body : String) : Outcome

/-- The result of the middleware: the headers it set with `res.header`, in
order, and how it ended. -/
structure CorsResult where
  headers : List (String × String)
  outcome : Outcome

/-- The value of `allowedOrigins.includes(origin)`. -/
def originAllowed (origin : Option String) : Bool :=
  match origin with
  | none => false
  | some o => allowedOrigins.contains o

/-- The CORS middleware (lines 14-36). -/
def corsMiddleware (req : Request) : CorsResult :=
  { headers :=
      (if originAllowed req.origin then [("Access-Control-Allow-Origin", req.origin.getD "")]
       else []) ++
      [("Access-Control-Allow-Headers", "Content-Type"),
       ("Access-Control-Allow-Methods", "GET, POST, OPTIONS")]
    outcome := if req.method = "OPTIONS" then .sent 200 "OK" else .next }

/-- The value of the response header `name`, if the middleware set it. -/
def CorsResult.header (r : CorsResult) (name : String) : Option String :=
  (r.headers.find? fun h => h.1 == name).map Prod.snd

/-! ## `GET /api/health` (lines 474-482) -/

/-- The handler of `GET /api/health`; `now` is the text of
`new Date().toISOString()`. -/
def health (env : Env) (now : String) : Response :=
  { status := 200
    body := [("status", .str "ok"),
             ("message", .str "FlashSpace Backend API is running"),
             ("emailService", .str (if envTruthy env.RESEND_API_KEY
               then "Resend configured ✅" else "Not configured ❌")),
             ("timestamp", .str now)] }

/-! ## Definitions used to state the properties -/

/-- The caught value carries a string under `message`, as every `Error` does. -/
def Thrown.hasMessage (t : Thrown) : Prop :=
  ∃ m, t.read "message" = .ok (.str m)

/-- Stated from the property: a field that is absent or falsy becomes `''`. -/
def emptyIfFalsy (v : JsVal) : JsVal :=
  if v.truthy then v else .str ""

/-- Stated from the property: the sixteen columns of a row, in order. The UTM
fields are those of `data.utm`, all absent when `utm` itself is absent. -/
def specRow (timestamp : String) (epoch : Nat) (data : JsVal) : List JsVal :=
  [JsVal.str timestamp] ++
  ["name", "email", "phone", "city", "company", "message"].map
    (fun k => emptyIfFalsy (data.get k)) ++
  ["utm_source", "utm_medium", "utm_campaign", "utm_term", "utm_content", "gclid",
    "referrer", "landing_page"].map
    (fun k => emptyIfFalsy
      (if (data.get "utm").nullish then .undefined else (data.get "utm").get k)) ++
  [JsVal.str ("FS-" ++ toString epoch)]

/-! ## Sample inputs -/

/-- A configuration with every variable set. -/
def sampleEnv : Env :=
  { RESEND_API_KEY := some "re_live_key"
    GOOGLE_SHEETS_ID := some "sheet-1"
    GOOGLE_SHEET_NAME := none
    GOOGLE_SERVICE_ACCOUNT_KEY_BASE64 := some "e30="
    GOOGLE_SERVICE_ACCOUNT_KEY := some "not json"
    NODE_ENV := none }

/-- A world in which both providers succeed; its `JSON.parse` accepts only the
text of the empty object. -/
def sampleWorld : World :=
  { send := fun _ =>
      .resolves (.obj [("data", .obj [("id", .str "em_1")]), ("error", .null)])
    append := fun _ =>
      .resolves (.obj [("data", .obj [("updates", .obj [("updatedCells", .num 16)])])])
    base64Decode := fun s => if s = "e30=" then "\x7b\x7d" else ""
    jsonParse := fun s =>
      if s = "\x7b\x7d" then .ok (.obj []) else .error "Unexpected end of JSON input"
    emailNow := 1762400000001
    sheetNow := 1762400000002
    responseNow := 1762400000003
    sheetTimestamp := "6/11/2026, 9:03:20 am"
    submitted := fun _ => "Invalid Date" }

/-- The submission `{name: "Asha", email: "a@b.com", city: "Pune"}`. -/
def sampleBody : JsVal :=
  .obj [("name", .str "Asha"), ("email", .str "a@b.com"), ("city", .str "Pune")]

/-- The spreadsheet provider rejects with the plain object `{}`. -/
def messagelessWorld : World :=
  { sampleWorld with append := fun _ => .rejects (.value (.obj [])) }

/-- The submission `{name: "Asha", email: "a@b.com", utm: {utm_source: null}}`. -/
def nullUtmBody : JsVal :=
  .obj [("name", .str "Asha"), ("email", .str "a@b.com"),
    ("utm", .obj [("utm_source", .null)])]

/-- The email provider's send call rejects with the plain object `{}`. -/
def sendRejectsObjectWorld : World :=
  { sampleWorld with send := fun _ => .rejects (.value (.obj [])) }

/-- The email provider's send call rejects with `null`. -/
def sendRejectsNullWorld : World :=
  { sampleWorld with send := fun _ => .rejects (.value .null) }

/-- The spreadsheet provider rejects with the error of a sheet that is not
shared with the service account: `Error("The caller does not have permission")`
with `code` 403. -/
def permissionDeniedWorld : World :=
  { sampleWorld with
    append := fun _ =>
      .rejects (.error "Error" "The caller does not have permission" (.num 403)
        (.obj [("status", .num 403)])) }

/-- The sample configuration with the placeholder email key. -/
def placeholderEnv : Env :=
  { sampleEnv with RESEND_API_KEY := some "re_your_api_key_here" }

/-- The submission `{name: "Asha", email: "a@b.com"}`: no city, phone, company,
message or utm. -/
def bareBody : JsVal :=
  .obj [("name", .str "Asha"), ("email", .str "a@b.com")]

/-- The submission `{name: " ", email: " "}`. -/
def whitespaceBody : JsVal :=
  .obj [("name", .str " "), ("email", .str " ")]

/-- The submission `{name: "", email: "a@b.com"}`. -/
def emptyNameBody : JsVal :=
  .obj [("name", .str ""), ("email", .str "a@b.com")]

/-! ## Lemmas about the embedding -/

theorem JsVal.truthy_ne_undefined {v : JsVal} (h : v.truthy = true) : v ≠ .undefined := by
  intro hv; simp [hv, JsVal.truthy] at h

theorem Response.field_of_ne_undefined {r : Response} {k : String} {v : JsVal}
    (h : JsVal.lookup k r.body = v) (hv : v ≠ .undefined) : r.field k = some v := by
  unfold Response.field
  rw [h]
  cases v <;> simp at hv ⊢

theorem sendEmail_of_valid (env : Env) (w : World) (body : JsVal)
    (hname : (body.get "name").truthy = true) (hemail : (body.get "email").truthy = true)
    (hkey : envTruthy env.RESEND_API_KEY = true)
    (hplace : env.RESEND_API_KEY ≠ some "re_your_api_key_here") :
    sendEmail env w body =
      match sendTry env w body with
      | (.ok response, calls) => { response := some response, calls := calls }
      | (.error error, calls) => { response := sendCatch env error, calls := calls } := by
  simp [sendEmail, hname, hemail, hkey, hplace]

theorem loadCredentials_error {env : Env} {w : World} {early : JsVal}
    (h : loadCredentials env w = .error early) :
    early.get "success" = .bool false ∧
      ∃ s, (early.get "message").or (early.get "error") = .str s := by
  unfold loadCredentials parseCredentials at h
  split at h
  · split at h
    · cases h; simp [JsVal.get, JsVal.lookup, JsVal.or, JsVal.truthy]
    · split at h
      · cases h; simp [JsVal.get, JsVal.lookup, JsVal.or, JsVal.truthy]
      · cases h
  · split at h
    · split at h
      · cases h; simp [JsVal.get, JsVal.lookup, JsVal.or, JsVal.truthy]
      · split at h
        · cases h; simp [JsVal.get, JsVal.lookup, JsVal.or, JsVal.truthy]
        · cases h
    · cases h; simp [JsVal.get, JsVal.lookup, JsVal.or, JsVal.truthy]

theorem Thrown.error_hasMessage (name message : String) (code response : JsVal) :
    (Thrown.error name message code response).hasMessage :=
  ⟨message, by simp [Thrown.read]⟩

theorem appendCatch_of_message (name message : String) (code response : JsVal)
    (h : containsText "does not have permission".data message.data = false) :
    appendCatch (.error name message code response) =
      .ok (.obj [("success", .bool false), ("error", .str message), ("details", code)]) := by
  simp [appendCatch, Thrown.read, JsVal.includes, h]

theorem appendCatch_of_permission (name message : String) (code response : JsVal)
    (h : containsText "does not have permission".data message.data = true) :
    appendCatch (.error name message code response) =
      .error (referenceError "credentials") := by
  simp [appendCatch, Thrown.read, JsVal.includes, h]

theorem sendCatch_of_hasMessage (env : Env) {t : Thrown} (h : t.hasMessage) :
    ∃ m details, sendCatch env t =
      some { status := 500
             body := [("success", .bool false),
                      ("message", .str "Failed to send email. Please try again later."),
                      ("error", .str m),
                      ("details", details)] } := by
  obtain ⟨m, hm⟩ := h
  cases t with
  | error name message code response =>
    exact ⟨message, _, by simp [sendCatch, Thrown.read]; rfl⟩
  | value v =>
    have hn : v.nullish = false := by
      cases hv : v.nullish with
      | false => rfl
      | true => simp [Thrown.read, JsVal.read, hv] at hm
    have hg : v.get "message" = .str m := by
      simpa [Thrown.read, JsVal.read, hn] using hm
    exact ⟨m, _, by simp [sendCatch, Thrown.read, JsVal.read, hn, hg]; rfl⟩

theorem appendResolved_cases (result : JsVal) :
    (∃ data, appendResolved result = .ok (.obj [("success", .bool true), ("result", data)])) ∨
      (∃ m, appendResolved result = .error (typeError m)) := by
  unfold appendResolved JsVal.read
  by_cases h1 : result.nullish = true
  · right; refine ⟨readErrorMessage result "data", ?_⟩; simp [h1]
  · by_cases h2 : (result.get "data").nullish = true
    · right; refine ⟨readErrorMessage (result.get "data") "updates", ?_⟩; simp [h1, h2]
    · by_cases h3 : ((result.get "data").get "updates").nullish = true
      · right
        refine ⟨readErrorMessage ((result.get "data").get "updates") "updatedCells", ?_⟩
        simp [h1, h2, h3]
      · left; refine ⟨result.get "data", ?_⟩; simp [h1, h2, h3]

theorem appendToSheet_of_no_id (env : Env) (w : World) (data : JsVal)
    (hid : envTruthy env.GOOGLE_SHEETS_ID = false) :
    appendToSheet env w data =
      (.ok (.obj [("success", .bool false),
        ("message", .str "Google Sheets not configured (missing GOOGLE_SHEETS_ID)")]), []) := by
  simp [appendToSheet, appendTry, hid]

theorem appendToSheet_of_early (env : Env) (w : World) (data early : JsVal)
    (hid : envTruthy env.GOOGLE_SHEETS_ID = true) (hc : loadCredentials env w = .error early) :
    appendToSheet env w data = (.ok early, []) := by
  simp [appendToSheet, appendTry, hid, hc]

theorem appendToSheet_of_rejects (env : Env) (w : World) (data credentials : JsVal)
    (reason : Thrown)
    (hid : envTruthy env.GOOGLE_SHEETS_ID = true) (hc : loadCredentials env w = .ok credentials)
    (ha : w.append (appendRequest env w data credentials) = .rejects reason) :
    appendToSheet env w data =
      (appendCatch reason, [.sheetsAppend (appendRequest env w data credentials)]) := by
  simp [appendToSheet, appendTry, hid, hc, ha]

theorem appendToSheet_of_resolves (env : Env) (w : World) (data credentials result : JsVal)
    (hid : envTruthy env.GOOGLE_SHEETS_ID = true) (hc : loadCredentials env w = .ok credentials)
    (ha : w.append (appendRequest env w data credentials) = .resolves result) :
    appendToSheet env w data =
      (match appendResolved result with
        | .ok r => .ok r
        | .error error => appendCatch error,
       [.sheetsAppend (appendRequest env w data credentials)]) := by
  simp only [appendToSheet, appendTry, hid, hc, ha, Bool.not_true, Bool.false_eq_true, if_false]
  cases appendResolved result <;> rfl

theorem JsVal.get_of_nullish {v : JsVal} (k : String) (h : v.nullish = true) :
    v.get k = .undefined := by
  cases v <;> first | rfl | simp [JsVal.nullish] at h

theorem JsVal.not_nullish_of_get {v : JsVal} {k s : String} (h : v.get k = .str s) :
    v.nullish = false := by
  cases v <;> first | rfl | simp [JsVal.get] at h

theorem JsVal.not_nullish_of_truthy_get {v : JsVal} {k : String}
    (h : (v.get k).truthy = true) : v.nullish = false := by
  cases v <;> first | rfl | simp [JsVal.get, JsVal.truthy] at h

theorem sendTry_of_sent (env : Env) (w : World) (body sent : JsVal) (id : String)
    (hs : w.send (emailRequest w body) = .resolves sent)
    (he : (sent.get "error").truthy = false)
    (hid : (sent.get "data").get "id" = .str id) :
    sendTry env w body =
      match appendToSheet env w body with
      | (.error t, calls) =>
        (.error t, .emailSend (emailRequest w body) :: .appendToSheet body :: calls)
      | (.ok sheetResult, calls) =>
        (.ok { status := 200, body := successBody w (sent.get "data") sheetResult },
          .emailSend (emailRequest w body) :: .appendToSheet body :: calls) := by
  have hd : (sent.get "data").nullish = false := JsVal.not_nullish_of_get hid
  have hn : sent.nullish = false := by
    cases hsn : sent.nullish with
    | false => rfl
    | true => rw [JsVal.get_of_nullish "data" hsn] at hid; simp [JsVal.get] at hid
  simp [sendTry, hs, hn, he, JsVal.read, hd]

theorem sendEmail_of_sheetResult (env : Env) (w : World) (body sent sheetResult : JsVal)
    (id : String) (calls : List Call)
    (hname : (body.get "name").truthy = true) (hemail : (body.get "email").truthy = true)
    (hkey : envTruthy env.RESEND_API_KEY = true)
    (hplace : env.RESEND_API_KEY ≠ some "re_your_api_key_here")
    (hs : w.send (emailRequest w body) = .resolves sent)
    (he : (sent.get "error").truthy = false)
    (hid : (sent.get "data").get "id" = .str id)
    (hsheet : appendToSheet env w body = (.ok sheetResult, calls)) :
    sendEmail env w body =
      { response := some { status := 200, body := successBody w (sent.get "data") sheetResult }
        calls := .emailSend (emailRequest w body) :: .appendToSheet body :: calls } := by
  rw [sendEmail_of_valid env w body hname hemail hkey hplace,
    sendTry_of_sent env w body sent id hs he hid, hsheet]

theorem appendToSheet_calls (env : Env) (w : World) (data : JsVal) :
    (appendToSheet env w data).2 = [] ∨
      ∃ credentials, loadCredentials env w = .ok credentials ∧
        (appendToSheet env w data).2 = [.sheetsAppend (appendRequest env w data credentials)] := by
  by_cases hid : envTruthy env.GOOGLE_SHEETS_ID = true
  · cases hc : loadCredentials env w with
    | error early => left; rw [appendToSheet_of_early env w data early hid hc]
    | ok credentials =>
      right
      refine ⟨credentials, rfl, ?_⟩
      cases ha : w.append (appendRequest env w data credentials) with
      | rejects reason => rw [appendToSheet_of_rejects env w data credentials _ hid hc ha]
      | resolves result => rw [appendToSheet_of_resolves env w data credentials result hid hc ha]
  · left; rw [appendToSheet_of_no_id env w data (by simpa using hid)]

theorem infix_of_append_chain (a u b c : String) :
    u.data <:+: (a ++ u ++ b ++ c).data := by
  simp only [String.data_append]
  exact (List.infix_append _ _ _).trans (List.prefix_append _ _).isInfix

theorem html_contains_utmInfo (submitted : String) (now : Nat)
    (name email phone city company message utm : JsVal) :
    (utmInfo utm).data <:+:
      (html submitted now name email phone city company message utm).data := by
  unfold html
  exact infix_of_append_chain _ _ _ _

theorem sendTry_calls (env : Env) (w : World) (body : JsVal) :
    ∃ rest, (sendTry env w body).2 = .emailSend (emailRequest w body) :: rest ∧
      ∀ c ∈ rest, ∀ r, c ≠ .emailSend r := by
  cases hs : w.send (emailRequest w body) with
  | rejects reason => exact ⟨[], by simp [sendTry, hs], by simp⟩
  | resolves sent =>
    by_cases hn : sent.nullish = true
    · exact ⟨[], by simp [sendTry, hs, hn], by simp⟩
    · by_cases he : (sent.get "error").truthy = true
      · exact ⟨[], by simp [sendTry, hs, hn, he], by simp⟩
      · cases hd : (sent.get "data").read "id" with
        | error t => exact ⟨[], by simp [sendTry, hs, hn, he, hd], by simp⟩
        | ok v =>
          have hcalls : (sendTry env w body).2 =
              .emailSend (emailRequest w body) :: .appendToSheet body ::
                (appendToSheet env w body).2 := by
            simp only [sendTry, hs, hn, he, hd, Bool.false_eq_true, if_false]
            rcases appendToSheet env w body with ⟨r, calls⟩
            cases r <;> rfl
          rcases appendToSheet_calls env w body with h0 | ⟨c, _, hc⟩
          · exact ⟨[.appendToSheet body], by rw [hcalls, h0], by simp⟩
          · exact ⟨[.appendToSheet body, .sheetsAppend (appendRequest env w body c)],
              by rw [hcalls, hc], by simp⟩

theorem subject_contains (name city utm : JsVal) :
    name.toStr.data <:+: (subject name city utm).data ∧
      ((utm.optGet "utm_campaign").or (.str "Direct Visit")).toStr.data <:+:
        (subject name city utm).data ∧
      city.toStr.data <:+: (subject name city utm).data := by
  unfold subject
  simp only [String.data_append]
  refine ⟨?_, ?_, ?_⟩
  · exact ((((List.infix_append _ _ _).trans (List.prefix_append _ _).isInfix).trans
      (List.prefix_append _ _).isInfix).trans (List.prefix_append _ _).isInfix).trans
      (List.prefix_append _ _).isInfix
  · exact ((List.infix_append _ _ _).trans (List.prefix_append _ _).isInfix).trans
      (List.prefix_append _ _).isInfix
  · exact List.infix_append _ _ _

theorem contact_chain_contains (c0 n c1 e c2 e' c3 p c4 p' c5 ci c6 co c7 su c8 : String) :
    p.data <:+:
        (c0 ++ n ++ c1 ++ e ++ c2 ++ e' ++ c3 ++ p ++ c4 ++ p' ++ c5 ++ ci ++ c6 ++ co ++ c7 ++
          su ++ c8).data ∧
      ci.data <:+:
        (c0 ++ n ++ c1 ++ e ++ c2 ++ e' ++ c3 ++ p ++ c4 ++ p' ++ c5 ++ ci ++ c6 ++ co ++ c7 ++
          su ++ c8).data ∧
      co.data <:+:
        (c0 ++ n ++ c1 ++ e ++ c2 ++ e' ++ c3 ++ p ++ c4 ++ p' ++ c5 ++ ci ++ c6 ++ co ++ c7 ++
          su ++ c8).data := by
  simp only [String.data_append]
  refine ⟨?_, ?_, ?_⟩
  · exact ⟨(c0 ++ n ++ c1 ++ e ++ c2 ++ e' ++ c3).data,
      (c4 ++ p' ++ c5 ++ ci ++ c6 ++ co ++ c7 ++ su ++ c8).data, by
        simp only [String.data_append, List.append_assoc]⟩
  · exact ⟨(c0 ++ n ++ c1 ++ e ++ c2 ++ e' ++ c3 ++ p ++ c4 ++ p' ++ c5).data,
      (c6 ++ co ++ c7 ++ su ++ c8).data, by
        simp only [String.data_append, List.append_assoc]⟩
  · exact ⟨(c0 ++ n ++ c1 ++ e ++ c2 ++ e' ++ c3 ++ p ++ c4 ++ p' ++ c5 ++ ci ++ c6).data,
      (c7 ++ su ++ c8).data, by
        simp only [String.data_append, List.append_assoc]⟩

theorem htmlContact_contains (submitted : String) (name email phone city company : JsVal) :
    phone.toStr.data <:+: (htmlContact submitted name email phone city company).data ∧
      city.toStr.data <:+: (htmlContact submitted name email phone city company).data ∧
      company.toStr.data <:+: (htmlContact submitted name email phone city company).data := by
  unfold htmlContact
  exact contact_chain_contains _ _ _ _ _ _ _ _ _ _ _ _ _ _ _ _ _

theorem html_chain_contains (a b c d e f g h i j : String) :
    c.data <:+: (a ++ b ++ c ++ d ++ e ++ f ++ g ++ h ++ i ++ j).data := by
  exact ⟨(a ++ b).data, (d ++ e ++ f ++ g ++ h ++ i ++ j).data, by
    simp only [String.data_append, List.append_assoc]⟩

theorem html_contains_htmlContact (submitted : String) (now : Nat)
    (name email phone city company message utm : JsVal) :
    (htmlContact submitted name email phone city company).data <:+:
      (html submitted now name email phone city company message utm).data := by
  unfold html
  exact html_chain_contains _ _ _ _ _ _ _ _ _ _

theorem sendCatch_status (env : Env) (t : Thrown) (response : Response)
    (h : sendCatch env t = some response) : response.status = 500 := by
  unfold sendCatch at h
  split at h
  · cases h
  · split at h
    · cases h
    · cases h; rfl

theorem sendTry_status (env : Env) (w : World) (body : JsVal) (response : Response)
    (calls : List Call) (h : sendTry env w body = (.ok response, calls)) :
    response.status = 500 ∨ response.status = 200 := by
  cases hs : w.send (emailRequest w body) with
  | rejects reason => simp [sendTry, hs] at h
  | resolves sent =>
    by_cases hn : sent.nullish = true
    · simp [sendTry, hs, hn] at h
    · by_cases he : (sent.get "error").truthy = true
      · simp [sendTry, hs, hn, he] at h
        left; rw [← h.1]
      · cases hd : (sent.get "data").read "id" with
        | error t => simp [sendTry, hs, hn, he, hd] at h
        | ok v =>
          simp only [sendTry, hs, hn, he, hd, Bool.false_eq_true, if_false] at h
          rcases hr : appendToSheet env w body with ⟨r, c⟩
          rw [hr] at h
          cases r with
          | error t => simp at h
          | ok sheetResult =>
            simp at h
            right; rw [← h.1]

theorem sendEmail_valid_status (env : Env) (w : World) (body : JsVal)
    (hname : (body.get "name").truthy = true) (hemail : (body.get "email").truthy = true)
    (response : Response) (h : (sendEmail env w body).response = some response) :
    response.status = 500 ∨ response.status = 200 := by
  by_cases hk : (!envTruthy env.RESEND_API_KEY ||
      decide (env.RESEND_API_KEY = some "re_your_api_key_here")) = true
  · simp [sendEmail, hname, hemail, hk] at h
    left; rw [← h]
  · simp only [sendEmail, hname, hemail, hk, Bool.not_true, Bool.or_self, Bool.false_eq_true,
      if_false] at h
    rcases ht : sendTry env w body with ⟨r, calls⟩
    rw [ht] at h
    cases r with
    | error t => exact Or.inl (sendCatch_status env t response h)
    | ok resp =>
      simp at h
      subst h
      exact sendTry_status env w body _ calls ht

/-! ## The properties -/

/-- Claim C1: a submission whose `name` or `email` is missing or the empty string
is answered, under every configuration, with HTTP 400 and the body
`{success: false, message: "Name and email are required"}`, and neither the
email provider nor `appendToSheet` (nor the spreadsheet provider) is called. -/
theorem sendEmail_missing_required_field (env : Env) (w : World) (body : JsVal)
    (h : body.get "name" = .undefined ∨ body.get "name" = .str "" ∨
         body.get "email" = .undefined ∨ body.get "email" = .str "") :
    (sendEmail env w body).response =
        some { status := 400
               body := [("success", .bool false),
                        ("message", .str "Name and email are required")] } ∧
      (sendEmail env w body).calls = [] := by
  have hv : (!(body.get "name").truthy || !(body.get "email").truthy) = true := by
    rcases h with h | h | h | h <;> simp [h, JsVal.truthy]
  simp [sendEmail, hv]

/-- The property of C1 on a submission without `name`. -/
theorem sendEmail_missing_required_field_witness :
    (sendEmail sampleEnv sampleWorld (.obj [("email", .str "a@b.com")])).response =
        some { status := 400
               body := [("success", .bool false),
                        ("message", .str "Name and email are required")] } ∧
      (sendEmail sampleEnv sampleWorld (.obj [("email", .str "a@b.com")])).calls = [] :=
  sendEmail_missing_required_field sampleEnv sampleWorld (.obj [("email", .str "a@b.com")])
    (Or.inl rfl)

/-- Claim C2, evaluated where the code departs from it: for a valid submission
with the email key configured, when the send call rejects with the plain object
`{}` the `catch` block answers HTTP 500 with `error: error.message`, which is
`undefined`, so the JSON body has `success` and `message` but no `error` field;
when the send call rejects with `null`, reading `error.name` (line 460) throws
inside the `catch` block and the handler sends no response at all. In both
runs the only call made is the send. -/
theorem sendEmail_send_rejection_without_message :
    (sendEmail sampleEnv sendRejectsObjectWorld sampleBody).response =
        some { status := 500
               body := [("success", .bool false),
                        ("message", .str "Failed to send email. Please try again later."),
                        ("error", .undefined),
                        ("details", .undefined)] } ∧
      ((sendEmail sampleEnv sendRejectsObjectWorld sampleBody).response.bind
        fun response => response.field "error") = none ∧
      (sendEmail sampleEnv sendRejectsObjectWorld sampleBody).calls =
        [.emailSend (emailRequest sendRejectsObjectWorld sampleBody)] ∧
      (sendEmail sampleEnv sendRejectsNullWorld sampleBody).response = none ∧
      (sendEmail sampleEnv sendRejectsNullWorld sampleBody).calls =
        [.emailSend (emailRequest sendRejectsNullWorld sampleBody)] := by
  refine ⟨rfl, rfl, rfl, rfl, rfl⟩

/-- Claim C3, evaluated where the code departs from it: the email provider
accepts the email and the spreadsheet provider call rejects with
`Error("The caller does not have permission")`, the error of a sheet that is
not shared with the service account. The third `includes` test of the `catch`
block of `appendToSheet` is true and line 159 reads `credentials`, which is not
in scope there: `appendToSheet` throws a `ReferenceError` instead of returning
a failure, and the handler answers HTTP 500 with `success: false` and neither
`googleSheets` nor `googleSheetsError`. -/
theorem sendEmail_sheet_permission_denied :
    (appendToSheet sampleEnv permissionDeniedWorld sampleBody).1 =
        .error (referenceError "credentials") ∧
      (sendEmail sampleEnv permissionDeniedWorld sampleBody).response.map Response.status =
        some 500 ∧
      ((sendEmail sampleEnv permissionDeniedWorld sampleBody).response.bind
        fun response => response.field "success") = some (.bool false) ∧
      ((sendEmail sampleEnv permissionDeniedWorld sampleBody).response.bind
        fun response => response.field "googleSheets") = none ∧
      ((sendEmail sampleEnv permissionDeniedWorld sampleBody).response.bind
        fun response => response.field "googleSheetsError") = none := by
  refine ⟨rfl, rfl, rfl, rfl, rfl⟩

/-- Claim C4, evaluated where the code departs from it: when the spreadsheet
provider call rejects with the plain object `{}` (no `message`), the `catch`
block of `appendToSheet` throws a `TypeError` at `error.message.includes`, so
`appendToSheet` throws instead of returning a tagged result, and the handler
answers HTTP 500 although the email was sent. -/
theorem appendToSheet_throws_on_messageless_rejection :
    (appendToSheet sampleEnv messagelessWorld sampleBody).1 =
        .error (typeError "Cannot read properties of undefined (reading 'includes')") ∧
      (sendEmail sampleEnv messagelessWorld sampleBody).response.map Response.status =
        some 500 := by
  constructor <;> rfl

/-- Claim C5, evaluated where the code departs from it: a valid submission, the
email key configured, and the email provider resolving with the message id
`em_1` and no error. When the spreadsheet provider call then rejects with
`Error("The caller does not have permission")`, `appendToSheet` throws (the
read of `credentials` at line 159) and the handler's `catch` block answers
HTTP 500 "Failed to send email" with no `emailId` and no `leadId`, after the
email was sent and the append was attempted. -/
theorem sendEmail_success_lost_on_permission_denied :
    permissionDeniedWorld.send (emailRequest permissionDeniedWorld sampleBody) =
        .resolves (.obj [("data", .obj [("id", .str "em_1")]), ("error", .null)]) ∧
      (sendEmail sampleEnv permissionDeniedWorld sampleBody).response =
        some { status := 500
               body := [("success", .bool false),
                        ("message", .str "Failed to send email. Please try again later."),
                        ("error", .str "credentials is not defined"),
                        ("details", .undefined)] } ∧
      (sendEmail sampleEnv permissionDeniedWorld sampleBody).calls =
        [.emailSend (emailRequest permissionDeniedWorld sampleBody),
         .appendToSheet sampleBody,
         .sheetsAppend (appendRequest sampleEnv permissionDeniedWorld sampleBody (.obj []))] := by
  refine ⟨rfl, rfl, rfl⟩

/-- Claim C6, evaluated where the code departs from it: for the submission
`{name: "Asha", email: "a@b.com", utm: {utm_source: null}}`, whose only UTM
field is `null`, `utmInfo` is the attribution table and not the "no attribution"
block, and the table is part of the email body that is sent. -/
theorem utmInfo_null_field_renders_table :
    utmInfo (nullUtmBody.get "utm") = utmTable (nullUtmBody.get "utm") ∧
      utmInfo (nullUtmBody.get "utm") ≠ utmNone ∧
      (utmTable (nullUtmBody.get "utm")).data <:+:
        (emailRequest sampleWorld nullUtmBody).html.data := by
  have h : utmInfo (nullUtmBody.get "utm") = utmTable (nullUtmBody.get "utm") := rfl
  refine ⟨h, by decide, ?_⟩
  rw [← h]
  exact html_contains_utmInfo _ _ _ _ _ _ _ _ _

/-- Claim C7, as the code has it: the middleware sets
`Access-Control-Allow-Origin` exactly when the request's origin is one of the
six allow-listed strings, and then to that origin (so for any other or missing
origin the header is not set); whatever the origin, it calls `next()` exactly
when the method is not `OPTIONS`. -/
theorem corsMiddleware_allow_origin (req : Request) :
    (∀ o, (corsMiddleware req).header "Access-Control-Allow-Origin" = some o ↔
      (req.origin = some o ∧ o ∈ allowedOrigins)) ∧
    allowedOrigins.length = 6 ∧
    ((corsMiddleware req).outcome = .next ↔ req.method ≠ "OPTIONS") := by
  refine ⟨?_, rfl, ?_⟩
  · intro o
    cases ho : req.origin with
    | none => simp [corsMiddleware, CorsResult.header, originAllowed, ho]
    | some o' =>
      by_cases hmem : o' ∈ allowedOrigins
      · have : originAllowed (some o') = true := by simpa [originAllowed] using hmem
        simp [corsMiddleware, CorsResult.header, ho, this]
        intro h; subst h; exact hmem
      · have : originAllowed (some o') = false := by simpa [originAllowed] using hmem
        simp [corsMiddleware, CorsResult.header, ho, this]
        intro h; subst h; exact hmem
  · by_cases hm : req.method = "OPTIONS" <;> simp [corsMiddleware, hm]

/-- Claim C7 as stated fails on a preflight: for an `OPTIONS` request from an
origin that is not allow-listed the header is not set, and the request does not
proceed to the next handler. -/
theorem corsMiddleware_preflight_does_not_proceed :
    (corsMiddleware { method := "OPTIONS", origin := some "https://example.org" }).header
        "Access-Control-Allow-Origin" = none ∧
      (corsMiddleware { method := "OPTIONS", origin := some "https://example.org" }).outcome
        ≠ .next := by
  constructor
  · decide
  · simp [corsMiddleware]

/-- Claim C8: whenever `appendToSheet` reaches the append call, the values it
hands over are exactly one row, the row of `specRow`: sixteen columns, namely
the server timestamp, `name`, `email`, `phone`, `city`, `company`, `message`,
the eight UTM fields in their order, and `"FS-"` followed by the decimal
millisecond clock reading, every absent or falsy field being `''`; when `utm`
itself is absent, the eight UTM columns are all `''`. -/
theorem appendToSheet_row (env : Env) (w : World) (data : JsVal) (request : AppendRequest)
    (h : Call.sheetsAppend request ∈ (appendToSheet env w data).2) :
    request.values = [specRow w.sheetTimestamp w.sheetNow data] ∧
      (specRow w.sheetTimestamp w.sheetNow data).length = 16 ∧
      ((data.get "utm").nullish = true →
        ∀ i, 7 ≤ i → i < 15 →
          (specRow w.sheetTimestamp w.sheetNow data)[i]? = some (.str "")) := by
  have hv : request.values = sheetValues w data := by
    rcases appendToSheet_calls env w data with h0 | ⟨c, _, hc⟩
    · rw [h0] at h; simp at h
    · rw [hc] at h
      simp at h
      rw [h]; rfl
  refine ⟨?_, ?_, ?_⟩
  · rw [hv]
    simp [sheetValues, specRow, emptyIfFalsy, JsVal.or, JsVal.optGet]
  · simp [specRow]
  · intro hu i h7 h15
    have : i = 7 ∨ i = 8 ∨ i = 9 ∨ i = 10 ∨ i = 11 ∨ i = 12 ∨ i = 13 ∨ i = 14 := by omega
    rcases this with h | h | h | h | h | h | h | h <;>
      simp [h, specRow, emptyIfFalsy, hu, JsVal.truthy]

/-- The property of C8 on the sample submission, which has no `utm`. -/
theorem appendToSheet_row_witness :
    (appendRequest sampleEnv sampleWorld sampleBody (.obj [])).values =
        [specRow sampleWorld.sheetTimestamp sampleWorld.sheetNow sampleBody] ∧
      (specRow sampleWorld.sheetTimestamp sampleWorld.sheetNow sampleBody).length = 16 ∧
      ((sampleBody.get "utm").nullish = true →
        ∀ i, 7 ≤ i → i < 15 →
          (specRow sampleWorld.sheetTimestamp sampleWorld.sheetNow sampleBody)[i]? =
            some (.str "")) :=
  appendToSheet_row sampleEnv sampleWorld sampleBody
    (appendRequest sampleEnv sampleWorld sampleBody (.obj [])) (List.Mem.head _)

/-- Claim C9: a submission that passes validation, under a configuration whose
`RESEND_API_KEY` is unset, empty or the placeholder `re_your_api_key_here`, is
answered with HTTP 500, `success: false` and the configuration message, and no
call is made: neither the email provider's send nor `appendToSheet`. -/
theorem sendEmail_key_not_configured (env : Env) (w : World) (body : JsVal)
    (hname : (body.get "name").truthy = true) (hemail : (body.get "email").truthy = true)
    (hkey : env.RESEND_API_KEY = none ∨ env.RESEND_API_KEY = some "" ∨
      env.RESEND_API_KEY = some "re_your_api_key_here") :
    (sendEmail env w body).response =
        some { status := 500
               body := [("success", .bool false),
                        ("message", .str
                          "Email service not configured. Please contact administrator.")] } ∧
      (sendEmail env w body).calls = [] := by
  have hk : (!envTruthy env.RESEND_API_KEY ||
      decide (env.RESEND_API_KEY = some "re_your_api_key_here")) = true := by
    rcases hkey with h | h | h <;> simp [h, envTruthy]
  simp [sendEmail, hname, hemail, hk]

/-- The property of C9 under the placeholder key. -/
theorem sendEmail_key_not_configured_witness :
    (sendEmail placeholderEnv sampleWorld sampleBody).response =
        some { status := 500
               body := [("success", .bool false),
                        ("message", .str
                          "Email service not configured. Please contact administrator.")] } ∧
      (sendEmail placeholderEnv sampleWorld sampleBody).calls = [] :=
  sendEmail_key_not_configured placeholderEnv sampleWorld sampleBody rfl rfl
    (Or.inr (Or.inr rfl))

/-- Claim C10: with a spreadsheet id configured, (1) when the Base64 credential is
configured, the raw JSON credential plays no part (any value of it gives the same
run), a parse failure of the decoded text returns the failure object
`Failed to decode Base64 credentials` with the cause and makes no provider call
(so does a parse result that is `null`, for which reading `client_email`
throws), and credentials that parse are the ones the append call is made with;
(2) otherwise, when the raw JSON credential is configured, it is parsed
directly, with the failure object `Failed to parse JSON credentials` on
failure; (3) otherwise the "not configured" failure object is returned. In
every failure case `appendToSheet` returns (it does not throw) and the list of
provider calls is empty. -/
theorem appendToSheet_credential_order (env : Env) (w : World) (data : JsVal)
    (hid : envTruthy env.GOOGLE_SHEETS_ID = true) :
    (∀ b, env.GOOGLE_SERVICE_ACCOUNT_KEY_BASE64 = some b → b ≠ "" →
      (∀ raw, appendToSheet { env with GOOGLE_SERVICE_ACCOUNT_KEY := raw } w data =
        appendToSheet env w data) ∧
      (∀ m, w.jsonParse (w.base64Decode b) = .error m →
        appendToSheet env w data =
          (.ok (.obj [("success", .bool false),
            ("message", .str "Failed to decode Base64 credentials"), ("error", .str m)]), [])) ∧
      (∀ c, w.jsonParse (w.base64Decode b) = .ok c → c.nullish = true →
        appendToSheet env w data =
          (.ok (.obj [("success", .bool false),
            ("message", .str "Failed to decode Base64 credentials"),
            ("error", .str (readErrorMessage c "client_email"))]), [])) ∧
      (∀ c, w.jsonParse (w.base64Decode b) = .ok c → c.nullish = false →
        (appendToSheet env w data).2 = [.sheetsAppend (appendRequest env w data c)])) ∧
    (envTruthy env.GOOGLE_SERVICE_ACCOUNT_KEY_BASE64 = false →
      ∀ k, env.GOOGLE_SERVICE_ACCOUNT_KEY = some k → k ≠ "" →
      (∀ m, w.jsonParse k = .error m →
        appendToSheet env w data =
          (.ok (.obj [("success", .bool false),
            ("message", .str "Failed to parse JSON credentials"), ("error", .str m)]), [])) ∧
      (∀ c, w.jsonParse k = .ok c → c.nullish = true →
        appendToSheet env w data =
          (.ok (.obj [("success", .bool false),
            ("message", .str "Failed to parse JSON credentials"),
            ("error", .str (readErrorMessage c "client_email"))]), [])) ∧
      (∀ c, w.jsonParse k = .ok c → c.nullish = false →
        (appendToSheet env w data).2 = [.sheetsAppend (appendRequest env w data c)])) ∧
    (envTruthy env.GOOGLE_SERVICE_ACCOUNT_KEY_BASE64 = false →
      envTruthy env.GOOGLE_SERVICE_ACCOUNT_KEY = false →
      appendToSheet env w data =
        (.ok (.obj [("success", .bool false),
          ("message", .str "Google Service Account not configured (no credentials found)")]),
          [])) := by
  refine ⟨?_, ?_, ?_⟩
  · intro b hb hne
    have hb64 : envTruthy env.GOOGLE_SERVICE_ACCOUNT_KEY_BASE64 = true := by
      simp [hb, envTruthy, hne]
    have hload : loadCredentials env w =
        parseCredentials w (w.base64Decode b) "Failed to decode Base64 credentials" := by
      unfold loadCredentials
      rw [if_pos hb64, hb]; rfl
    refine ⟨?_, ?_, ?_, ?_⟩
    · intro raw
      simp [appendToSheet, appendTry, loadCredentials, hb64, appendRequest, sheetRange]
    · intro m hm
      apply appendToSheet_of_early env w data _ hid
      rw [hload]; simp [parseCredentials, hm]
    · intro c hc hn
      apply appendToSheet_of_early env w data _ hid
      rw [hload]; simp [parseCredentials, hc, hn]
    · intro c hc hn
      have hcred : loadCredentials env w = .ok c := by
        rw [hload]; simp [parseCredentials, hc, hn]
      rcases appendToSheet_calls env w data with h0 | ⟨c', hc', hcalls⟩
      · exfalso
        cases ha : w.append (appendRequest env w data c) with
        | rejects reason =>
          rw [appendToSheet_of_rejects env w data c _ hid hcred ha] at h0; simp at h0
        | resolves result =>
          rw [appendToSheet_of_resolves env w data c result hid hcred ha] at h0; simp at h0
      · rw [hcred] at hc'; cases hc'; exact hcalls
  · intro hb64 k hk hne
    have hkey : envTruthy env.GOOGLE_SERVICE_ACCOUNT_KEY = true := by
      simp [hk, envTruthy, hne]
    have hload : loadCredentials env w =
        parseCredentials w k "Failed to parse JSON credentials" := by
      unfold loadCredentials
      rw [if_neg (by simp [hb64]), if_pos hkey, hk]; rfl
    refine ⟨?_, ?_, ?_⟩
    · intro m hm
      apply appendToSheet_of_early env w data _ hid
      rw [hload]; simp [parseCredentials, hm]
    · intro c hc hn
      apply appendToSheet_of_early env w data _ hid
      rw [hload]; simp [parseCredentials, hc, hn]
    · intro c hc hn
      have hcred : loadCredentials env w = .ok c := by
        rw [hload]; simp [parseCredentials, hc, hn]
      rcases appendToSheet_calls env w data with h0 | ⟨c', hc', hcalls⟩
      · exfalso
        cases ha : w.append (appendRequest env w data c) with
        | rejects reason =>
          rw [appendToSheet_of_rejects env w data c _ hid hcred ha] at h0; simp at h0
        | resolves result =>
          rw [appendToSheet_of_resolves env w data c result hid hcred ha] at h0; simp at h0
      · rw [hcred] at hc'; cases hc'; exact hcalls
  · intro hb64 hkey
    apply appendToSheet_of_early env w data _ hid
    simp [loadCredentials, hb64, hkey]

/-- The property of C10 on the sample configuration, where both credentials are
configured and only the Base64 one parses: the append call is made with it. -/
theorem appendToSheet_credential_order_witness :
    (appendToSheet sampleEnv sampleWorld sampleBody).2 =
      [.sheetsAppend (appendRequest sampleEnv sampleWorld sampleBody (.obj []))] :=
  ((appendToSheet_credential_order sampleEnv sampleWorld sampleBody rfl).1 "e30=" rfl
    (by decide)).2.2.2 (.obj []) rfl rfl

/-- Claim C11: for a valid submission with the email key configured, the first
call the handler makes, and its only call of the email provider, is the send
of an email whose recipient list is exactly `sales@flashspace.co`, whose
reply-to is the submitted `email`, and whose subject contains the text of the
`name`, the text of `utm_campaign` when that is non-empty and `Direct Visit`
otherwise, and the text of the `city`. -/
theorem sendEmail_recipient_replyTo_subject (env : Env) (w : World) (body : JsVal)
    (hname : (body.get "name").truthy = true) (hemail : (body.get "email").truthy = true)
    (hkey : envTruthy env.RESEND_API_KEY = true)
    (hplace : env.RESEND_API_KEY ≠ some "re_your_api_key_here") :
    (∃ rest, (sendEmail env w body).calls = .emailSend (emailRequest w body) :: rest ∧
      ∀ c ∈ rest, ∀ r, c ≠ .emailSend r) ∧
    (emailRequest w body).recipients = ["sales@flashspace.co"] ∧
    (emailRequest w body).replyTo = body.get "email" ∧
    (body.get "name").toStr.data <:+: (emailRequest w body).subject.data ∧
    (if ((body.get "utm").optGet "utm_campaign").truthy
      then ((body.get "utm").optGet "utm_campaign").toStr
      else "Direct Visit").data <:+: (emailRequest w body).subject.data ∧
    (body.get "city").toStr.data <:+: (emailRequest w body).subject.data := by
  obtain ⟨hn, hc, hcity⟩ := subject_contains (body.get "name") (body.get "city") (body.get "utm")
  refine ⟨?_, rfl, rfl, hn, ?_, hcity⟩
  · rw [sendEmail_of_valid env w body hname hemail hkey hplace]
    obtain ⟨rest, hcalls, hrest⟩ := sendTry_calls env w body
    refine ⟨rest, ?_, hrest⟩
    rcases ht : sendTry env w body with ⟨r, calls⟩
    rw [ht] at hcalls
    cases r <;> exact hcalls
  · have : (if ((body.get "utm").optGet "utm_campaign").truthy
        then ((body.get "utm").optGet "utm_campaign").toStr else "Direct Visit") =
        (((body.get "utm").optGet "utm_campaign").or (.str "Direct Visit")).toStr := by
      unfold JsVal.or
      split <;> rfl
    rw [this]
    exact hc

/-- The property of C11 on `{name: "Asha", email: "a@b.com", city: "Pune"}`,
which has no `utm`: the subject contains `Asha`, `Direct Visit` and `Pune`. -/
theorem sendEmail_recipient_replyTo_subject_witness :
    (emailRequest sampleWorld sampleBody).recipients = ["sales@flashspace.co"] ∧
      (emailRequest sampleWorld sampleBody).replyTo = .str "a@b.com" ∧
      "Asha".data <:+: (emailRequest sampleWorld sampleBody).subject.data ∧
      "Direct Visit".data <:+: (emailRequest sampleWorld sampleBody).subject.data ∧
      "Pune".data <:+: (emailRequest sampleWorld sampleBody).subject.data ∧
      (emailRequest sampleWorld sampleBody).subject =
        "🎯 New Lead: Asha from Direct Visit - Pune" :=
  have h := sendEmail_recipient_replyTo_subject sampleEnv sampleWorld sampleBody
    rfl rfl rfl (by decide)
  ⟨h.2.1, h.2.2.1, h.2.2.2.1, h.2.2.2.2.1, h.2.2.2.2.2, by decide⟩

/-- Claim C12, evaluated where the code departs from it: for the submission
`{name: "Asha", email: "a@b.com"}`, which has no `city`, `phone` or `company`,
the email subject ends in `undefined`, the text of the absent `city`, and the
texts of the absent `phone`, `city` and `company`, each `undefined`, are part
of the email body; the spreadsheet row of the same submission has `''` in
these columns. -/
theorem emailRequest_renders_undefined :
    (emailRequest sampleWorld bareBody).subject =
        "🎯 New Lead: Asha from Direct Visit - undefined" ∧
      (bareBody.get "phone").toStr = "undefined" ∧
      (bareBody.get "city").toStr = "undefined" ∧
      (bareBody.get "company").toStr = "undefined" ∧
      (bareBody.get "phone").toStr.data <:+: (emailRequest sampleWorld bareBody).html.data ∧
      (bareBody.get "city").toStr.data <:+: (emailRequest sampleWorld bareBody).html.data ∧
      (bareBody.get "company").toStr.data <:+: (emailRequest sampleWorld bareBody).html.data ∧
      (sheetValues sampleWorld bareBody).map (fun row => (row[3]?, row[4]?, row[5]?)) =
        [(some (.str ""), some (.str ""), some (.str ""))] := by
  obtain ⟨hp, hc, hco⟩ := htmlContact_contains
    (sampleWorld.submitted (bareBody.get "timestamp")) (bareBody.get "name")
    (bareBody.get "email") (bareBody.get "phone") (bareBody.get "city")
    (bareBody.get "company")
  have hh := html_contains_htmlContact (sampleWorld.submitted (bareBody.get "timestamp"))
    sampleWorld.emailNow (bareBody.get "name") (bareBody.get "email") (bareBody.get "phone")
    (bareBody.get "city") (bareBody.get "company") (bareBody.get "message")
    (bareBody.get "utm")
  exact ⟨by decide, rfl, rfl, rfl, hp.trans hh, hc.trans hh, hco.trans hh, rfl⟩

/-- Claim C13, as the code has it: every request whose method is `OPTIONS`,
whatever its origin (the middleware is mounted on every path and does not read
the path), is answered by the middleware with `res.sendStatus(200)`, that is
HTTP 200 with the status text `OK` as the body, and is not passed on. -/
theorem corsMiddleware_preflight (req : Request) (h : req.method = "OPTIONS") :
    (corsMiddleware req).outcome = .sent 200 "OK" ∧ (corsMiddleware req).outcome ≠ .next := by
  simp [corsMiddleware, h]

/-- The property of C13, as amended, on a preflight from an allow-listed origin. -/
theorem corsMiddleware_preflight_witness :
    (corsMiddleware { method := "OPTIONS", origin := some "https://flashspace.co" }).outcome =
        .sent 200 "OK" ∧
      (corsMiddleware { method := "OPTIONS", origin := some "https://flashspace.co" }).outcome
        ≠ .next :=
  corsMiddleware_preflight { method := "OPTIONS", origin := some "https://flashspace.co" } rfl

/-- Claim C13 as stated fails: the answer to an `OPTIONS` request has a body,
the two characters `OK`. -/
theorem corsMiddleware_preflight_has_body :
    ∃ text, (corsMiddleware { method := "OPTIONS", origin := none }).outcome = .sent 200 text ∧
      text ≠ "" :=
  ⟨"OK", rfl, by decide⟩

/-- Claim C14, as the code has it: the required-field check does not trim. For a
submission whose `name` and `email` are strings, the handler answers HTTP 400
with `{success: false, message: "Name and email are required"}` and makes no
call exactly when one of the two is the empty string; a string of whitespace
characters is not empty and passes the check. -/
theorem sendEmail_validation_no_trim (env : Env) (w : World) (body : JsVal) (n e : String)
    (hn : body.get "name" = .str n) (he : body.get "email" = .str e) :
    ((sendEmail env w body).response =
        some { status := 400
               body := [("success", .bool false),
                        ("message", .str "Name and email are required")] } ∧
      (sendEmail env w body).calls = []) ↔ (n = "" ∨ e = "") := by
  constructor
  · intro h
    by_contra hne
    have hn' : (body.get "name").truthy = true := by
      rw [hn]; simp [JsVal.truthy]; intro h0; exact hne (Or.inl h0)
    have he' : (body.get "email").truthy = true := by
      rw [he]; simp [JsVal.truthy]; intro h0; exact hne (Or.inr h0)
    rcases sendEmail_valid_status env w body hn' he' _ h.1 with h5 | h2
    · simp at h5
    · simp at h2
  · intro h
    have hv : (!(body.get "name").truthy || !(body.get "email").truthy) = true := by
      rcases h with h | h <;> simp [hn, he, h, JsVal.truthy]
    simp [sendEmail, hv]

/-- The property of C14, as amended, on `{name: "", email: "a@b.com"}`. -/
theorem sendEmail_validation_no_trim_witness :
    (sendEmail sampleEnv sampleWorld emptyNameBody).response =
        some { status := 400
               body := [("success", .bool false),
                        ("message", .str "Name and email are required")] } ∧
      (sendEmail sampleEnv sampleWorld emptyNameBody).calls = [] :=
  (sendEmail_validation_no_trim sampleEnv sampleWorld emptyNameBody "" "a@b.com" rfl rfl).mpr
    (Or.inl rfl)

/-- Claim C14 as stated fails: the submission `{name: " ", email: " "}`, whose
`name` and `email` are a single space, passes the check; with both providers
succeeding the handler answers HTTP 200 after sending the email and appending
the row. -/
theorem sendEmail_whitespace_passes_validation :
    (sendEmail sampleEnv sampleWorld whitespaceBody).response.map Response.status = some 200 ∧
      (sendEmail sampleEnv sampleWorld whitespaceBody).calls =
        [.emailSend (emailRequest sampleWorld whitespaceBody),
         .appendToSheet whitespaceBody,
         .sheetsAppend (appendRequest sampleEnv sampleWorld whitespaceBody (.obj []))] := by
  constructor <;> rfl

/-- Claim C15: under every configuration `GET /api/health` answers HTTP 200 with
the fields `status`, `message`, `emailService` and `timestamp`; `emailService`
is the "configured" text exactly when `RESEND_API_KEY` is set and not empty,
and the "not configured" text otherwise. Under the placeholder key
`re_your_api_key_here` it is the "configured" text, while
`POST /api/send-email` answers a valid submission with the HTTP 500
not-configured response (and an invalid one with the 400 response). -/
theorem health_reports_key_presence (env : Env) (now : String) (w : World) (body : JsVal) :
    (health env now).status = 200 ∧
    (health env now).field "status" = some (.str "ok") ∧
    (health env now).field "message" = some (.str "FlashSpace Backend API is running") ∧
    (health env now).field "timestamp" = some (.str now) ∧
    ((health env now).field "emailService" = some (.str "Resend configured ✅") ↔
      ∃ k, env.RESEND_API_KEY = some k ∧ k ≠ "") ∧
    ((health env now).field "emailService" = some (.str "Not configured ❌") ↔
      ¬ ∃ k, env.RESEND_API_KEY = some k ∧ k ≠ "") ∧
    (health { env with RESEND_API_KEY := some "re_your_api_key_here" } now).field
      "emailService" = some (.str "Resend configured ✅") ∧
    (sendEmail { env with RESEND_API_KEY := some "re_your_api_key_here" } w body).response =
      some (if (body.get "name").truthy && (body.get "email").truthy then
        { status := 500
          body := [("success", .bool false),
                   ("message", .str
                     "Email service not configured. Please contact administrator.")] }
      else
        { status := 400
          body := [("success", .bool false),
                   ("message", .str "Name and email are required")] }) := by
  have hiff : envTruthy env.RESEND_API_KEY = true ↔ ∃ k, env.RESEND_API_KEY = some k ∧ k ≠ "" := by
    cases hk : env.RESEND_API_KEY <;> simp [envTruthy]
  refine ⟨rfl, ?_, ?_, ?_, ?_, ?_, ?_, ?_⟩
  · simp [health, Response.field, JsVal.lookup]
  · simp [health, Response.field, JsVal.lookup]
  · simp [health, Response.field, JsVal.lookup]
  · rw [← hiff]
    by_cases hk : envTruthy env.RESEND_API_KEY = true <;>
      simp [health, Response.field, JsVal.lookup, hk]
  · rw [← hiff]
    by_cases hk : envTruthy env.RESEND_API_KEY = true <;>
      simp [health, Response.field, JsVal.lookup, hk]
  · simp [health, Response.field, JsVal.lookup, envTruthy]
  · by_cases hv : ((body.get "name").truthy && (body.get "email").truthy) = true
    · have h1 : (body.get "name").truthy = true := by simp at hv; exact hv.1
      have h2 : (body.get "email").truthy = true := by simp at hv; exact hv.2
      simp [sendEmail, h1, h2]
    · have hv' : (!(body.get "name").truthy || !(body.get "email").truthy) = true := by
        cases h1 : (body.get "name").truthy <;> cases h2 : (body.get "email").truthy <;>
          simp [h1, h2] at hv ⊢
      have hv2 : ((body.get "name").truthy && (body.get "email").truthy) = false := by
        simpa using hv
      simp only [sendEmail, hv', if_true, hv2, Bool.false_eq_true, if_false]

end FlashSpace
